import Mathlib

/-!
Verification development for the FastApiScraper repository
(`src/scraper_api.py`).

We shallowly embed the scraping pipeline:

* HTML markup is a tree of element/text nodes (`Node`), with the
  BeautifulSoup operations the code uses: `find` / `find_all` over the
  descendants in document (pre-)order, matching by tag name, `id`
  attribute or `class` attribute (token equality, whole-attribute
  equality for multi-token search strings, and the
  `lambda x: x and 'product' in x` substring predicate),
  `get_text(strip=True)`, and attribute lookup.
* `Scraper.parse_page` becomes `parse_page : Node → Except String (List
  ProductItem)`; a Python `AttributeError` raised by dereferencing a
  `None` returned from `find` is modelled as `Except.error
  "AttributeError"` (bs4 `Tag.__bool__` is always `True`, so `if tag:`
  is exactly a not-`None` test).
* `Scraper.scrape_page` with its `tenacity` `@retry(stop_after_attempt 3,
  wait_fixed 5)` decorator becomes `scrape_page`, parameterised by an
  oracle giving the outcome of each network attempt; tenacity retries
  only when the wrapped body raises, and the body catches
  `requests.RequestException` and returns `None`, which we model
  faithfully.
* `Scraper.scrape` becomes `scrape`, parameterised by a per-page fetch
  oracle (`none` models a fetch that returned `None` / falsy text).
* `ScrapingController.scrape_and_store` becomes `scrape_and_store`,
  with the Redis cache as an association list (first binding wins, as a
  key-value store) and the storage / notification collaborators as
  explicit state and call traces.
-/

/-- A substring test on character lists: `charsPrefix n h` holds when
`n` is an initial segment of `h`. -/
def charsPrefix : List Char → List Char → Bool
  | [], _ => true
  | _ :: _, [] => false
  | a :: as, b :: bs => a == b && charsPrefix as bs

/-- `charsSub n h` holds when `n` occurs contiguously inside `h`
(Python's `n in h` on strings). -/
def charsSub (needle : List Char) : List Char → Bool
  | [] => charsPrefix needle []
  | c :: t => charsPrefix needle (c :: t) || charsSub needle t

/-- Python's substring containment `needle in hay`. -/
def strContainsSub (hay needle : String) : Bool :=
  charsSub needle.toList hay.toList

/-- The whitespace characters Python's `str.strip` and `str.split`
treat as separators. -/
def pySpace (c : Char) : Bool :=
  c = ' ' || c = '\t' || c = '\n' || c = '\r' || c = '\x0b' || c = '\x0c'

/-- Drop leading whitespace from a character list. -/
def dropSpace : List Char → List Char
  | [] => []
  | c :: cs => if pySpace c then dropSpace cs else c :: cs

/-- Python `str.strip()`: remove leading and trailing whitespace. -/
def pyStrip (s : String) : String :=
  ⟨(dropSpace (dropSpace s.toList).reverse).reverse⟩

/-- Split a character list into maximal whitespace-free tokens. -/
def tokensAux : List Char → List Char → List String
  | [], acc => if acc.isEmpty then [] else [⟨acc.reverse⟩]
  | c :: cs, acc =>
    if pySpace c then
      if acc.isEmpty then tokensAux cs [] else (⟨acc.reverse⟩ : String) :: tokensAux cs []
    else tokensAux cs (c :: acc)

/-- An HTML node: either a text node or an element with a tag name, an
optional `id` attribute, an optional raw `class` attribute string, the
remaining attributes, and children in document order. -/
inductive Node where
  | text (s : String)
  | tag (name : String) (idAttr : Option String) (classAttr : Option String)
      (attrs : List (String × String)) (children : List Node)

mutual

/-- All descendants of a node in document (pre-)order, the node itself
excluded — the search space of BeautifulSoup's `find` / `find_all`. -/
def nodeDescendants : Node → List Node
  | .text _ => []
  | .tag _ _ _ _ cs => listDescendants cs

/-- Pre-order traversal of a forest: each root followed by its
descendants. -/
def listDescendants : List Node → List Node
  | [] => []
  | c :: cs => c :: nodeDescendants c ++ listDescendants cs

end

mutual

/-- `get_text(strip=True)`: concatenation of all text descendants, each
stripped of surrounding whitespace. -/
def nodeGetText : Node → String
  | .text s => pyStrip s
  | .tag _ _ _ _ cs => listGetText cs

/-- `get_text(strip=True)` over a forest of children. -/
def listGetText : List Node → String
  | [] => ""
  | c :: cs => nodeGetText c ++ listGetText cs

end

/-- BeautifulSoup `find(...)`: first descendant satisfying the matcher,
in document order. -/
def findNode (p : Node → Bool) (n : Node) : Option Node :=
  (nodeDescendants n).find? p

/-- BeautifulSoup `find_all(...)`: all descendants satisfying the
matcher, in document order. -/
def findAllNodes (p : Node → Bool) (n : Node) : List Node :=
  (nodeDescendants n).filter p

/-- The whitespace-separated tokens of a raw `class` attribute value
(bs4 treats `class` as a multi-valued attribute). -/
def classTokens (raw : String) : List String :=
  tokensAux raw.toList []

/-- bs4 matching of a string search value `s` against a `class`
attribute: `s` equals one of the class tokens, or (for multi-token
search strings) the whole raw attribute value equals `s`. A tag with no
`class` attribute never matches. -/
def classMatchesStr (s : String) : Option String → Bool
  | none => false
  | some raw => (classTokens raw).contains s || raw == s

/-- bs4 matching of the callable `lambda x: x and 'product' in x`
against a `class` attribute: the callable is applied to each class
token; a missing attribute (`x = None`) is falsy. -/
def classMatchesProductSub : Option String → Bool
  | none => false
  | some raw => (classTokens raw).any (fun t => strContainsSub t "product")

/-- Matcher for `find(name)`: element with the given tag name. -/
def tagNamed (nm : String) : Node → Bool
  | .tag t _ _ _ _ => t == nm
  | .text _ => false

/-- Matcher for `find("div", id="mf-shop-content")`-style searches. -/
def tagWithId (nm idv : String) : Node → Bool
  | .tag t i _ _ _ => t == nm && i == some idv
  | .text _ => false

/-- Matcher for `find(name, class_="...")`-style searches. -/
def tagWithClass (nm s : String) : Node → Bool
  | .tag t _ c _ _ => t == nm && classMatchesStr s c
  | .text _ => false

/-- Matcher for `find_all("li", class_=lambda x: x and 'product' in x)`. -/
def liProduct : Node → Bool
  | .tag t _ c _ _ => t == "li" && classMatchesProductSub c
  | .text _ => false

/-- Attribute lookup `tag[k]` / `tag.has_attr(k)` on the non-`id`,
non-`class` attributes. -/
def getAttr (k : String) : Node → Option String
  | .text _ => none
  | .tag _ _ _ attrs _ => (attrs.find? (fun a => a.1 == k)).map (fun a => a.2)

/-- The record built per item by `parse_page`
(`{"product_title": ..., "product_price": ..., "path_to_image": ...}`);
`path_to_image` is `None` when the lazy-load attribute or the image tag
is absent. -/
structure ProductItem where
  product_title : String
  product_price : String
  path_to_image : Option String
deriving DecidableEq, Repr

/-- Lines 100–106 of `parse_page`: inside the price box, prefer the
`<ins>` (sale price) text, else the
`span.woocommerce-Price-amount.amount` text, else `"N/A"`. -/
def priceFromBox (price_box : Node) : String :=
  match findNode (tagNamed "ins") price_box with
  | some ins_tag => nodeGetText ins_tag
  | none =>
    match findNode (tagWithClass "span" "woocommerce-Price-amount amount") price_box with
    | some bdi_tag => nodeGetText bdi_tag
    | none => "N/A"

/-- Lines 109–111 of `parse_page`: from the anchor inside the thumbnail
div, `find("img")`, then read `data-lazy-src` if the tag and the
attribute exist, else `None`. -/
def imgSrcFrom (a_tag : Node) : Option String :=
  match findNode (tagNamed "img") a_tag with
  | none => none
  | some img_tag => getAttr "data-lazy-src" img_tag

/-- The body of `parse_page`'s inner loop for one `li` item (lines
90–112). Returns `ok none` when `product.find("div",
class_="product-inner clearfix")` is `None` (nothing appended),
`ok (some item)` when a record is appended, and
`error "AttributeError"` when the code calls a method on a `None`
returned by an unguarded `find`: line 97 (`mf-product-content`, `h2`
or `a` missing in the title chain), line 101 (`mf-product-price-box`
missing), or line 109 (`mf-product-thumbnail` or its `a` missing). -/
def parseProduct (product : Node) : Except String (Option ProductItem) :=
  match findNode (tagWithClass "div" "product-inner clearfix") product with
  | none => .ok none
  | some product_inner =>
    let tpRes : Except String (String × String) :=
      match findNode (tagWithClass "div" "mf-product-details") product_inner with
      | none => .ok ("", "")
      | some dtl =>
        match findNode (tagWithClass "div" "mf-product-content") dtl with
        | none => .error "AttributeError"
        | some content =>
          match findNode (tagNamed "h2") content with
          | none => .error "AttributeError"
          | some h2_tag =>
            match findNode (tagNamed "a") h2_tag with
            | none => .error "AttributeError"
            | some a_tag =>
              match findNode (tagWithClass "div" "mf-product-price-box") dtl with
              | none => .error "AttributeError"
              | some price_box => .ok (nodeGetText a_tag, priceFromBox price_box)
    match tpRes with
    | .error e => .error e
    | .ok tp =>
      match findNode (tagWithClass "div" "mf-product-thumbnail") product_inner with
      | none => .error "AttributeError"
      | some thumb =>
        match findNode (tagNamed "a") thumb with
        | none => .error "AttributeError"
        | some thumb_a =>
          .ok (some { product_title := tp.1, product_price := tp.2,
                      path_to_image := imgSrcFrom thumb_a })

/-- The `for product in ...` loop of `parse_page`, over the remaining
items, carrying the accumulated `products` list. An exception from any
item aborts the whole loop, losing the records of earlier items. -/
def parseItems : List Node → List ProductItem → Except String (List ProductItem)
  | [], products => .ok products
  | product :: rest, products =>
    match parseProduct product with
    | .error e => .error e
    | .ok none => parseItems rest products
    | .ok (some item) => parseItems rest (products ++ [item])

/-- `Scraper.parse_page` (lines 82–113): find the `#mf-shop-content`
div; if absent, return `[]`; otherwise walk every `ul` and every
product `li` inside each, appending one record per item. -/
def parse_page (soup : Node) : Except String (List ProductItem) :=
  match findNode (tagWithId "div" "mf-shop-content") soup with
  | none => .ok []
  | some shop_content =>
    parseItems
      ((findAllNodes (tagNamed "ul") shop_content).flatMap
        (fun ul => findAllNodes liProduct ul))
      []

/-! ## Page Fetcher (`Scraper.scrape_page`, lines 71–80) -/

/-- The network-level outcome of one HTTP GET attempt: a 2xx response
with body text, or a `requests.RequestException` (connection error,
timeout, or the non-2xx `HTTPError` from `raise_for_status`). -/
inductive FetchOutcome where
  | success (text : String)
  | netError
deriving DecidableEq, Repr

/-- A Python call result: a normal return, or an uncaught exception
propagating to the caller. -/
inductive PyResult (α : Type) where
  | ret (a : α)
  | exn
deriving DecidableEq, Repr

/-- The body of `scrape_page` (lines 73–80): on a 2xx response return
the text; `requests.RequestException` is caught inside the function,
logged, and turned into a `None` return — it never propagates to the
`tenacity` wrapper. -/
def scrape_page_body : FetchOutcome → Option String
  | .success t => some t
  | .netError => none

/-- `tenacity`'s retry loop: call the body; a normal return is final; a
raised exception consumes an attempt and triggers a `wait_fixed` delay
before the next attempt; once the `stop_after_attempt` budget is
exhausted the wrapper raises `RetryError`. Returns the call result
together with the number of attempts actually made. The body receives
the index of the attempt so that per-attempt outcomes can vary. -/
def retryRun {α : Type} (body : Nat → PyResult α) : Nat → Nat → PyResult α × Nat
  | 0, made => (.exn, made)
  | n + 1, made =>
    match body made with
    | .ret a => (.ret a, made + 1)
    | .exn => retryRun body n (made + 1)

/-- `Scraper.scrape_page` under its decorator
`@retry(stop=stop_after_attempt(3), wait=wait_fixed(5))`: the attempt
oracle gives the network outcome of each successive attempt. -/
def scrape_page (attempts : Nat → FetchOutcome) : PyResult (Option String) × Nat :=
  retryRun (fun i => PyResult.ret (scrape_page_body (attempts i))) 3 0

/-! ## Pagination Driver (`Scraper.scrape`, lines 115–121) -/

/-- Per-page fetch oracle for one `scrape` run, at the markup level:
`some html` when `scrape_page` returned truthy text (which
`BeautifulSoup` then parses into the tree `html`), `none` when it
returned `None` (or empty text, which `if html:` also skips). -/
abbrev FetchPage := Nat → Option Node

/-- The pages `range(1, page_limit + 1)` visits, in order. -/
def pageList (page_limit : Nat) : List Nat :=
  (List.range page_limit).map (fun i => i + 1)

/-- The loop of `scrape` (lines 117–120) over the remaining pages,
carrying the accumulated `all_products`. A failed fetch skips the page;
an exception from `parse_page` propagates, aborting the whole call. -/
def scrapeAux (fetchPage : FetchPage) : List Nat → List ProductItem → Except String (List ProductItem)
  | [], all_products => .ok all_products
  | page :: pages, all_products =>
    match fetchPage page with
    | none => scrapeAux fetchPage pages all_products
    | some html =>
      match parse_page html with
      | .error e => .error e
      | .ok recs => scrapeAux fetchPage pages (all_products ++ recs)

/-- `Scraper.scrape` (lines 115–121): iterate pages `1..page_limit`
and extend `all_products` with each fetched page's parse. -/
def scrape (page_limit : Nat) (fetchPage : FetchPage) : Except String (List ProductItem) :=
  scrapeAux fetchPage (pageList page_limit) []

/-- What one page contributes to the scrape: nothing when its fetch
failed, otherwise its parse result. -/
def pageRecords (fetchPage : FetchPage) (page : Nat) : Except String (List ProductItem) :=
  match fetchPage page with
  | none => .ok []
  | some html => parse_page html

/-! ## Change Cache and Scrape Orchestrator
(`ScrapingController.scrape_and_store`, lines 129–148) -/

/-- The Redis cache (`decode_responses=True`): string keys to string
values, most recent binding first. -/
abbrev Cache := List (String × String)

/-- `redis_client.get`: the value of the most recent binding of the
key, or `None` when the key is absent. -/
def cacheGet (c : Cache) (k : String) : Option String :=
  (c.find? (fun e => e.1 == k)).map (fun e => e.2)

/-- `redis_client.set`: unconditional overwrite of the key. -/
def cacheSet (c : Cache) (k v : String) : Cache :=
  (k, v) :: c

/-- Line 137: `cache_key = f"{product['product_title']}_price"`. -/
def cacheKey (product : ProductItem) : String :=
  product.product_title ++ "_price"

/-- State of the diff loop at lines 134–142: the cache plus
`updated_count`. -/
structure DiffState where
  cache : Cache
  updated_count : Nat
deriving DecidableEq, Repr

/-- One iteration of the loop at lines 136–142: read the cached price
for the record's key; if it is absent or differs from the current
price, write the current price and increment `updated_count`; otherwise
leave both untouched. -/
def diffStep (st : DiffState) (product : ProductItem) : DiffState :=
  let cache_key := cacheKey product
  let cached_price := cacheGet st.cache cache_key
  if cached_price = none ∨ cached_price ≠ some product.product_price then
    { cache := cacheSet st.cache cache_key product.product_price,
      updated_count := st.updated_count + 1 }
  else st

/-- `"Scraped {n} products. Updated {m} products."` (lines 147–148). -/
def summaryMessage (total updated : Nat) : String :=
  "Scraped " ++ toString total ++ " products. Updated " ++ toString updated ++ " products."

/-- Observable outcome of one `scrape_and_store` call: the counts, the
cache after the run, the storage state after the run, the trace of
`storage.save` invocations, the trace of `notification.send` messages,
and the returned message. -/
structure RunResult where
  updated_count : Nat
  total_scraped : Nat
  cache : Cache
  storage : List ProductItem
  saves : List (List ProductItem)
  notifications : List String
  message : String
deriving DecidableEq, Repr

/-- `ScrapingController.scrape_and_store` (lines 129–148) given the
list `scraper.scrape()` returned, the initial cache, and the initial
storage contents: load `existing_data` (line 133 — bound but never
consulted), run the diff loop, call `storage.save(scraped_data)` when
`updated_count > 0`, and always send the summary notification. -/
def scrape_and_store (scraped_data : List ProductItem) (cache0 : Cache)
    (storage0 : List ProductItem) : RunResult :=
  let _existing_data := storage0
  let final := scraped_data.foldl diffStep { cache := cache0, updated_count := 0 }
  let msg := summaryMessage scraped_data.length final.updated_count
  { updated_count := final.updated_count,
    total_scraped := scraped_data.length,
    cache := final.cache,
    storage := if final.updated_count > 0 then scraped_data else storage0,
    saves := if final.updated_count > 0 then [scraped_data] else [],
    notifications := [msg],
    message := msg }

/-! ## Concrete markup fixtures used by witnesses and counterexamples -/

/-- `<a>Widget A</a>` — the title link of a well-formed item. -/
def aFull : Node := .tag "a" none none [] [.text "Widget A"]

/-- `<h2><a>Widget A</a></h2>`. -/
def h2Full : Node := .tag "h2" none none [] [aFull]

/-- `<div class="mf-product-content"><h2>…</h2></div>`. -/
def contentFull : Node := .tag "div" none (some "mf-product-content") [] [h2Full]

/-- `<ins>$9.99</ins>` — the sale-price node. -/
def insFull : Node := .tag "ins" none none [] [.text "$9.99"]

/-- `<span class="woocommerce-Price-amount amount">$19.99</span>` — the
regular-price node. -/
def spanFull : Node := .tag "span" none (some "woocommerce-Price-amount amount") [] [.text "$19.99"]

/-- A price box holding both the sale and the regular price. -/
def pboxFull : Node := .tag "div" none (some "mf-product-price-box") [] [insFull, spanFull]

/-- `<img data-lazy-src="img.jpg">`. -/
def imgFull : Node := .tag "img" none none [("data-lazy-src", "img.jpg")] []

/-- The anchor inside the thumbnail div. -/
def taFull : Node := .tag "a" none none [] [imgFull]

/-- `<div class="mf-product-thumbnail"><a>…</a></div>`. -/
def thumbFull : Node := .tag "div" none (some "mf-product-thumbnail") [] [taFull]

/-- The details region of the well-formed item. -/
def dtlFull : Node := .tag "div" none (some "mf-product-details") [] [contentFull, pboxFull]

/-- `<div class="product-inner clearfix">` of the well-formed item. -/
def innerFull : Node := .tag "div" none (some "product-inner clearfix") [] [dtlFull, thumbFull]

/-- A fully well-formed product `<li>`: title "Widget A", sale price
"$9.99" (regular "$19.99" also present), lazy-loaded image. -/
def itemFull : Node := .tag "li" none (some "product type-product") [] [innerFull]

/-- The record `parse_page` extracts from `itemFull`. -/
def prodFull : ProductItem :=
  { product_title := "Widget A", product_price := "$9.99", path_to_image := some "img.jpg" }

/-- A second item, "Widget B": no sale price (regular price only), and
an `<img>` without the `data-lazy-src` attribute. -/
def itemB : Node :=
  .tag "li" none (some "product") []
    [.tag "div" none (some "product-inner clearfix") []
      [.tag "div" none (some "mf-product-details") []
        [.tag "div" none (some "mf-product-content") []
          [.tag "h2" none none [] [.tag "a" none none [] [.text "Widget B"]]],
         .tag "div" none (some "mf-product-price-box") []
          [.tag "span" none (some "woocommerce-Price-amount amount") [] [.text "$19.99"]]],
       .tag "div" none (some "mf-product-thumbnail") []
        [.tag "a" none none [] [.tag "img" none none [] []]]]]

/-- The record `parse_page` extracts from `itemB`. -/
def prodB : ProductItem :=
  { product_title := "Widget B", product_price := "$19.99", path_to_image := none }

/-- A malformed item: the details region exists but the
`mf-product-content` chain under it is missing, so line 97 dereferences
`None`. -/
def itemBadTitle : Node :=
  .tag "li" none (some "product") []
    [.tag "div" none (some "product-inner clearfix") []
      [.tag "div" none (some "mf-product-details") [] []]]

/-- A page whose first item is well-formed and whose second item is
`itemBadTitle`. -/
def c2Page : Node :=
  .tag "html" none none []
    [.tag "div" (some "mf-shop-content") none []
      [.tag "ul" none none [] [itemFull, itemBadTitle]]]

/-- A page with no `#mf-shop-content` container at all. -/
def noShopPage : Node :=
  .tag "html" none none []
    [.tag "div" none (some "content") [] [.text "nothing here"]]

/-- An inner wrapper with no children: no details region, no thumbnail
region. -/
def innerEmpty : Node := .tag "div" none (some "product-inner clearfix") [] []

/-- An item whose inner wrapper is present but entirely empty. -/
def itemNoDetails : Node := .tag "li" none (some "product") [] [innerEmpty]

/-- An empty anchor, holding no image node. -/
def aEmptyT : Node := .tag "a" none none [] []

/-- A thumbnail region whose anchor holds no image. -/
def thumbT : Node := .tag "div" none (some "mf-product-thumbnail") [] [aEmptyT]

/-- An inner wrapper with a thumbnail region but no details region. -/
def innerT : Node := .tag "div" none (some "product-inner clearfix") [] [thumbT]

/-- An item with the inner wrapper, no details region, and a thumbnail
region whose anchor holds no image. -/
def itemTitleless : Node := .tag "li" none (some "product") [] [innerT]

/-- A page holding only `itemFull`. -/
def pageA : Node :=
  .tag "html" none none []
    [.tag "div" (some "mf-shop-content") none []
      [.tag "ul" none none [] [itemFull]]]

/-- A page holding only `itemB`. -/
def pageB : Node :=
  .tag "html" none none []
    [.tag "div" (some "mf-shop-content") none []
      [.tag "ul" none none [] [itemB]]]

/-- Fetch oracle for the C6 witness: pages 1 and 2 both succeed. -/
def fetchW6 : FetchPage :=
  fun p => if p = 1 then some pageA else if p = 2 then some pageB else none

/-- Per-page records of `fetchW6`. -/
def recsW6 : Nat → List ProductItem :=
  fun p => if p = 1 then [prodFull] else if p = 2 then [prodB] else []

/-- Fetch oracle for the C5 witness: pages 1 and 3 succeed, the fetch
of page 2 fails. -/
def fetchW5 : FetchPage :=
  fun p => if p = 1 then some pageA else if p = 3 then some pageB else none

/-- Per-page records of `fetchW5`'s successful pages. -/
def recsW5 : Nat → List ProductItem :=
  fun p => if p = 1 then [prodFull] else if p = 3 then [prodB] else []

/-! ## Theorems -/

/-- Helper: when every remaining page's contribution is known and
error-free, the scrape loop returns the accumulator followed by the
pages' records in order. -/
theorem scrapeAux_ok (fetchPage : FetchPage) (g : Nat → List ProductItem) :
    ∀ (ps : List Nat) (acc : List ProductItem),
      (∀ p ∈ ps, pageRecords fetchPage p = .ok (g p)) →
      scrapeAux fetchPage ps acc = .ok (acc ++ ps.flatMap g) := by
  intro ps
  induction ps with
  | nil => intro acc _; simp [scrapeAux]
  | cons p rest ih =>
    intro acc h
    have hp := h p (List.mem_cons_self p rest)
    have hrest : ∀ q ∈ rest, pageRecords fetchPage q = .ok (g q) :=
      fun q hq => h q (List.mem_cons_of_mem p hq)
    cases hfp : fetchPage p with
    | none =>
      have hg : g p = [] := by
        simpa [pageRecords, hfp] using hp
      simp [scrapeAux, hfp, ih acc hrest, hg]
    | some html =>
      have hparse : parse_page html = .ok (g p) := by
        have := hp
        simpa [pageRecords, hfp] using this
      simp [scrapeAux, hfp, hparse, ih (acc ++ g p) hrest]

/-- Helper: a freshly written cache binding is what `get` then
returns. -/
theorem cacheGet_set (c : Cache) (k v : String) :
    cacheGet (cacheSet c k v) k = some v := by
  simp [cacheGet, cacheSet, List.find?]

/-- C1: one iteration of the orchestrator's diff loop (the body of
`scrape_and_store`'s `foldl diffStep`) increments `updated_count`
exactly when the cache key `<title>_price` is absent or its value
differs from the record's current price; in that case the current
price is written under the key, and when the cached price equals the
current price both the count and the cache are left untouched. -/
theorem diffStep_update_decision (st : DiffState) (product : ProductItem) :
    ((diffStep st product).updated_count = st.updated_count + 1 ↔
      (cacheGet st.cache (cacheKey product) = none ∨
        cacheGet st.cache (cacheKey product) ≠ some product.product_price)) ∧
    ((cacheGet st.cache (cacheKey product) = none ∨
        cacheGet st.cache (cacheKey product) ≠ some product.product_price) →
      cacheGet (diffStep st product).cache (cacheKey product) = some product.product_price) ∧
    (cacheGet st.cache (cacheKey product) = some product.product_price →
      (diffStep st product).updated_count = st.updated_count ∧
      (diffStep st product).cache = st.cache) := by
  by_cases hc : cacheGet st.cache (cacheKey product) = none ∨
      cacheGet st.cache (cacheKey product) ≠ some product.product_price
  · refine ⟨?_, fun _ => ?_, fun heq => ?_⟩
    · simp [diffStep, hc]
    · simp [diffStep, hc, cacheGet_set]
    · exact absurd heq (by rcases hc with h1 | h1 <;> simp_all)
  · push_neg at hc
    obtain ⟨-, heq⟩ := hc
    refine ⟨?_, fun hcond => ?_, fun _ => ?_⟩
    · simp [diffStep, heq]
    · rw [heq] at hcond; simp at hcond
    · constructor <;> simp [diffStep, heq]

/-- C2 at a concrete input (the claim fails on the code): on a page
whose second item has its details region but no `mf-product-content`
chain, line 97 dereferences `None` and the resulting `AttributeError`
aborts the whole page — even the first, fully well-formed item's
record is lost — while the same well-formed item on its own parses
fine. -/
theorem parse_page_aborts_on_missing_title_chain :
    parse_page c2Page = .error "AttributeError" ∧
    parseProduct itemBadTitle = .error "AttributeError" ∧
    parse_page pageA = .ok [prodFull] :=
  ⟨rfl, rfl, rfl⟩

/-- C3 (the claim fails on the code): `scrape_page` catches
`requests.RequestException` inside the function body and returns
`None`, so the `tenacity` wrapper — which retries only when the body
raises — never retries: every call makes exactly one network attempt
and returns that attempt's (caught) outcome; in particular a
permanently failing network yields `None` after a single attempt, with
no 5-unit waits, instead of the claimed 3 attempts. -/
theorem scrape_page_single_attempt :
    scrape_page (fun _ => FetchOutcome.netError) = (PyResult.ret none, 1) ∧
    (∀ attempts : Nat → FetchOutcome,
      scrape_page attempts = (PyResult.ret (scrape_page_body (attempts 0)), 1)) :=
  ⟨rfl, fun _ => rfl⟩

/-- C4: for an item whose extraction chain is intact, the extracted
record's price is `priceFromBox` of the price box, which takes the
`<ins>` (sale) text when that node is present — even when the regular
price node is also present — else the regular-price span's text when
present, else the literal `"N/A"`. -/
theorem parseProduct_price_preference
    (product product_inner dtl content h2_tag a_tag price_box thumb thumb_a : Node)
    (hfind1 : findNode (tagWithClass "div" "product-inner clearfix") product = some product_inner)
    (hfind2 : findNode (tagWithClass "div" "mf-product-details") product_inner = some dtl)
    (hfind3 : findNode (tagWithClass "div" "mf-product-content") dtl = some content)
    (hfind4 : findNode (tagNamed "h2") content = some h2_tag)
    (hfind5 : findNode (tagNamed "a") h2_tag = some a_tag)
    (hfind6 : findNode (tagWithClass "div" "mf-product-price-box") dtl = some price_box)
    (hfind7 : findNode (tagWithClass "div" "mf-product-thumbnail") product_inner = some thumb)
    (hfind8 : findNode (tagNamed "a") thumb = some thumb_a) :
    parseProduct product = .ok (some
      { product_title := nodeGetText a_tag,
        product_price := priceFromBox price_box,
        path_to_image := imgSrcFrom thumb_a }) ∧
    (∀ ins_tag, findNode (tagNamed "ins") price_box = some ins_tag →
      priceFromBox price_box = nodeGetText ins_tag) ∧
    (findNode (tagNamed "ins") price_box = none →
      ∀ bdi_tag,
        findNode (tagWithClass "span" "woocommerce-Price-amount amount") price_box = some bdi_tag →
        priceFromBox price_box = nodeGetText bdi_tag) ∧
    (findNode (tagNamed "ins") price_box = none →
      findNode (tagWithClass "span" "woocommerce-Price-amount amount") price_box = none →
      priceFromBox price_box = "N/A") := by
  refine ⟨?_, fun ins_tag hi => ?_, fun hn bdi_tag hb => ?_, fun hn hb => ?_⟩
  · simp [parseProduct, hfind1, hfind2, hfind3, hfind4, hfind5, hfind6, hfind7, hfind8]
  · simp [priceFromBox, hi]
  · simp [priceFromBox, hn, hb]
  · simp [priceFromBox, hn, hb]

/-- Witness for C4: on the fully well-formed item, whose price box
holds both `<ins>$9.99</ins>` and the regular-price span `$19.99`,
extraction yields the sale price. -/
theorem parseProduct_price_preference_witness :
    parseProduct itemFull = .ok (some prodFull) ∧ priceFromBox pboxFull = "$9.99" :=
  ⟨((parseProduct_price_preference itemFull innerFull dtlFull contentFull h2Full aFull
      pboxFull thumbFull taFull rfl rfl rfl rfl rfl rfl rfl rfl).1).trans rfl,
   (parseProduct_price_preference itemFull innerFull dtlFull contentFull h2Full aFull
      pboxFull thumbFull taFull rfl rfl rfl rfl rfl rfl rfl rfl).2.1 insFull rfl⟩

/-- C5: when every page the fetcher does deliver parses without an
exception, a scrape over pages `1..page_limit` returns normally and its
result is exactly the concatenation of the successfully fetched pages'
records — every page whose fetch failed contributes `[]` and the loop
continues past it. -/
theorem scrape_fault_isolation (page_limit : Nat) (fetchPage : FetchPage)
    (recs : Nat → List ProductItem)
    (hok : ∀ p ∈ pageList page_limit, ∀ html, fetchPage p = some html →
      parse_page html = .ok (recs p)) :
    scrape page_limit fetchPage =
      .ok ((pageList page_limit).flatMap
        (fun p => if (fetchPage p).isSome then recs p else [])) := by
  have h : ∀ p ∈ pageList page_limit,
      pageRecords fetchPage p = .ok (if (fetchPage p).isSome then recs p else []) := by
    intro p hp
    cases hfp : fetchPage p with
    | none => simp [pageRecords, hfp]
    | some html => simp [pageRecords, hfp, hok p hp html hfp]
  simpa [scrape] using scrapeAux_ok fetchPage _ (pageList page_limit) [] h

/-- Witness for C5: three pages, the fetch of page 2 fails; the scrape
still returns the records of pages 1 and 3. -/
theorem scrape_fault_isolation_witness :
    scrape 3 fetchW5 = .ok [prodFull, prodB] := by
  have h := scrape_fault_isolation 3 fetchW5 recsW5 ?hok
  case hok =>
    intro p hp html hh
    fin_cases hp
    · have hx : pageA = html := by simpa [fetchW5] using hh
      rw [← hx]; rfl
    · simp [fetchW5] at hh
    · have hx : pageB = html := by simpa [fetchW5] using hh
      rw [← hx]; rfl
  exact h.trans rfl

/-- C6: the pagination driver visits exactly the pages `1..page_limit`
in increasing order (`pageList page_limit = List.range' 1 page_limit`),
and, when every page's contribution is error-free, returns their
records' ordered concatenation, whose length is the sum of the
per-page record counts. -/
theorem scrape_visits_in_order_concat (page_limit : Nat) (fetchPage : FetchPage)
    (recs : Nat → List ProductItem)
    (hok : ∀ p ∈ pageList page_limit, pageRecords fetchPage p = .ok (recs p)) :
    pageList page_limit = List.range' 1 page_limit ∧
    scrape page_limit fetchPage = .ok ((pageList page_limit).flatMap recs) ∧
    ((pageList page_limit).flatMap recs).length =
      ((pageList page_limit).map (fun p => (recs p).length)).sum := by
  refine ⟨?_, ?_, ?_⟩
  · rw [pageList, List.range'_eq_map_range]
    exact List.map_congr_left (fun i _ => Nat.add_comm i 1)
  · simpa [scrape] using scrapeAux_ok fetchPage recs (pageList page_limit) [] hok
  · simp only [List.length_flatMap]
    exact congrArg List.sum (List.map_congr_left (fun p _ => rfl))

/-- Witness for C6: a two-page scrape returns page 1's record followed
by page 2's record. -/
theorem scrape_visits_in_order_concat_witness :
    scrape 2 fetchW6 = .ok [prodFull, prodB] := by
  have h := scrape_visits_in_order_concat 2 fetchW6 recsW6 ?hok
  case hok =>
    intro p hp
    fin_cases hp <;> rfl
  exact h.2.1.trans rfl

/-- C7: when the markup has no `div` with id `mf-shop-content`,
`parse_page` returns the empty list as a normal (non-exceptional)
outcome. -/
theorem parse_page_no_container (soup : Node)
    (h : findNode (tagWithId "div" "mf-shop-content") soup = none) :
    parse_page soup = .ok [] := by
  simp [parse_page, h]

/-- Witness for C7: a concrete page without the container parses to
`ok []`. -/
theorem parse_page_no_container_witness :
    parse_page noShopPage = .ok ([] : List ProductItem) :=
  parse_page_no_container noShopPage rfl

/-- C8: `storage.save` is invoked exactly when `updated_count > 0`, and
then exactly once, receiving the entire scraped list (not only the
changed records); when `updated_count = 0` no save happens and the
stored dataset is left as it was. The notification is sent in either
case. -/
theorem scrape_and_store_save_policy (scraped_data : List ProductItem)
    (cache0 : Cache) (storage0 : List ProductItem) :
    ((scrape_and_store scraped_data cache0 storage0).saves =
      if 0 < (scrape_and_store scraped_data cache0 storage0).updated_count
      then [scraped_data] else []) ∧
    ((scrape_and_store scraped_data cache0 storage0).storage =
      if 0 < (scrape_and_store scraped_data cache0 storage0).updated_count
      then scraped_data else storage0) ∧
    (scrape_and_store scraped_data cache0 storage0).notifications =
      [summaryMessage scraped_data.length
        (scrape_and_store scraped_data cache0 storage0).updated_count] :=
  ⟨rfl, rfl, rfl⟩

/-- C9: the update decision is cache-only — two runs over the same
scraped records and the same cache state, differing only in what
`storage.load` returned, produce the same `updated_count`, the same
`total_scraped`, the same final cache, the same sequence of save calls
and the same returned message: the loaded `existing_data` is never
consulted. -/
theorem scrape_and_store_ignores_loaded_data (scraped_data : List ProductItem)
    (cache0 : Cache) (e1 e2 : List ProductItem) :
    (scrape_and_store scraped_data cache0 e1).updated_count =
      (scrape_and_store scraped_data cache0 e2).updated_count ∧
    (scrape_and_store scraped_data cache0 e1).total_scraped =
      (scrape_and_store scraped_data cache0 e2).total_scraped ∧
    (scrape_and_store scraped_data cache0 e1).cache =
      (scrape_and_store scraped_data cache0 e2).cache ∧
    (scrape_and_store scraped_data cache0 e1).saves =
      (scrape_and_store scraped_data cache0 e2).saves ∧
    (scrape_and_store scraped_data cache0 e1).message =
      (scrape_and_store scraped_data cache0 e2).message :=
  ⟨rfl, rfl, rfl, rfl, rfl⟩

/-- C10 counterexample: an item that has the inner product wrapper and
lacks the product-details region, but also lacks the thumbnail region;
the claim says extraction still appends a record with empty title and
price, yet the code raises `AttributeError` at line 109 instead of
producing any record. -/
theorem titleless_item_counterexample :
    findNode (tagWithClass "div" "product-inner clearfix") itemNoDetails = some innerEmpty ∧
    findNode (tagWithClass "div" "mf-product-details") innerEmpty = none ∧
    parseProduct itemNoDetails = .error "AttributeError" :=
  ⟨rfl, rfl, rfl⟩

/-- C10 as amended: for an item with the inner product wrapper, no
product-details region, and an intact thumbnail-anchor chain,
extraction appends a record whose title and price are both the empty
string, and the orchestrator keys every such record by the single
cache key `"_price"`, so all title-less products share one cache
entry. -/
theorem titleless_item_shared_cache_key
    (product product_inner thumb thumb_a : Node)
    (hfind1 : findNode (tagWithClass "div" "product-inner clearfix") product = some product_inner)
    (hfind2 : findNode (tagWithClass "div" "mf-product-details") product_inner = none)
    (hfind3 : findNode (tagWithClass "div" "mf-product-thumbnail") product_inner = some thumb)
    (hfind4 : findNode (tagNamed "a") thumb = some thumb_a) :
    parseProduct product = .ok (some
      { product_title := "", product_price := "", path_to_image := imgSrcFrom thumb_a }) ∧
    cacheKey { product_title := "", product_price := "",
               path_to_image := imgSrcFrom thumb_a } = "_price" := by
  refine ⟨?_, rfl⟩
  simp [parseProduct, hfind1, hfind2, hfind3, hfind4]

/-- Witness for the amended C10: the concrete title-less item yields
the record with empty title and price. -/
theorem titleless_item_shared_cache_key_witness :
    parseProduct itemTitleless = .ok (some
      { product_title := "", product_price := "", path_to_image := none }) :=
  ((titleless_item_shared_cache_key itemTitleless innerT thumbT aEmptyT
      rfl rfl rfl rfl).1).trans rfl
